import Mathlib

/-!
Verification of the corrective-RAG decision workflow of the MedView
intelligent-healthcare-companion repository.

The definitions below are shallow embeddings of the Python functions in
`src/api/tools.py` and of the per-document loop body of
`src/kb/data-ingestion/web-2-s3/diabetes_scraper_scheduler.py`.  External
services (the RAGAS scoring call, the Tavily search API, the Bedrock
knowledge-base retrieval, S3 and the MD5 hash) are passed in as explicit
oracle parameters; everything this repository computes itself is embedded
executably.
-/

/-! ### Basic Python string helpers -/

/-- The apostrophe character, built by code point to keep it out of literals. -/
def apos : Char := Char.ofNat 39

/-- ASCII lowering of a single character, the effect of Python `str.lower`
on the ASCII range (all pattern text in the source is ASCII). -/
def pyLowerChar (c : Char) : Char :=
  if 65 ≤ c.toNat ∧ c.toNat ≤ 90 then Char.ofNat (c.toNat + 32) else c

/-- Python `str.lower` on the character list of a string. -/
def pyLower (l : List Char) : List Char := l.map pyLowerChar

/-- The characters Python `str.strip` and the regex class `\s` treat as
whitespace (ASCII range). -/
def isSpacePy (c : Char) : Bool :=
  c == ' ' || c == '\t' || c == '\n' || c == '\r' || c == '\x0b' || c == '\x0c'

/-- Python `str.strip`: drop leading and trailing whitespace. -/
def pyStrip (l : List Char) : List Char :=
  ((l.dropWhile isSpacePy).reverse.dropWhile isSpacePy).reverse

/-- Python `str.strip` at the `String` level. -/
def pyStripStr (s : String) : String := String.mk (pyStrip s.data)

/-- The decimal digit character for `d < 10`. -/
def digitChar (d : Nat) : Char := Char.ofNat (48 + d)

/-- Decimal notation of a natural number, fuel-driven; the fuel is an upper
bound on the number of digits (each recursive step divides by ten). -/
def decimalReprAux : Nat → Nat → List Char
  | 0, _ => []
  | fuel + 1, n =>
    if n < 10 then [digitChar n]
    else decimalReprAux fuel (n / 10) ++ [digitChar (n % 10)]

/-- Decimal notation of a natural number, used to state claims about
queries that mention concrete blood-glucose values. -/
def decimalRepr (n : Nat) : List Char := decimalReprAux (n + 1) n

/-! ### Relevance scorer: `check_chunks_relevance` (src/api/tools.py:362-448)

The chunk extraction embeds the `re.findall` of the pattern
`Score:.*?\nContent:\s*(.*?)(?=Score:|\Z)` under `re.DOTALL`: each match
starts at a `Score:` marker, skips lazily to the first following
`\nContent:`, greedily eats whitespace, and captures lazily up to the next
`Score:` marker or the end of the input.  The RAGAS scoring call is an
oracle returning either a rational score or the message of a raised
exception. -/

/-- The characters of the `Score:` marker. -/
def scoreTok : List Char := "Score:".data

/-- The characters of the `\nContent:` marker. -/
def contentTok : List Char := "\nContent:".data

/-- Index of the first occurrence of `pat` in `l`, if any. -/
def findSub (pat : List Char) : List Char → Option Nat
  | [] => if pat.isPrefixOf ([] : List Char) then some 0 else none
  | l@(_ :: t) =>
    if pat.isPrefixOf l then some 0 else (findSub pat t).map (· + 1)

/-- One `re.findall` scan for the extraction pattern.  Each iteration
consumes at least the 15 characters of the two markers, so fuel equal to
the input length never runs out. -/
def extractLoopF : Nat → List Char → List (List Char)
  | 0, _ => []
  | fuel + 1, l =>
    match findSub scoreTok l with
    | none => []
    | some i =>
      let afterScore := l.drop (i + 6)
      match findSub contentTok afterScore with
      | none => []
      | some j =>
        let body := (afterScore.drop (j + 9)).dropWhile isSpacePy
        match findSub scoreTok body with
        | none => [body]
        | some m => body.take m :: extractLoopF fuel (body.drop m)

/-- The `docs` list of `check_chunks_relevance`: the stripped captures of
the `Score:/Content:` extraction regex. -/
def extractChunks (results : String) : List String :=
  (extractLoopF results.data.length results.data).map (fun c => String.mk (pyStrip c))

/-- The dictionary returned by `check_chunks_relevance`; the optional
`error` field models the `"error"` key present only on the fail-open path. -/
structure RelevanceVerdict where
  error : Option String
  chunk_relevance_score : String
  chunk_relevance_value : ℚ
deriving DecidableEq, Repr

/-- The fail-open dictionary built in the `except` clause of
`check_chunks_relevance` (src/api/tools.py:441-448). -/
def relevanceFailOpen (msg : String) : RelevanceVerdict :=
  { error := some msg, chunk_relevance_score := "yes", chunk_relevance_value := 1/2 }

/-- Message of the `ValueError` raised for an empty `results` argument. -/
def invalidResultsMsg : String :=
  "Invalid input: " ++ String.mk [apos] ++ "results" ++ String.mk [apos] ++
    " must be a non-empty string."

/-- Message of the `ValueError` raised for an empty `question` argument. -/
def invalidQuestionMsg : String :=
  "Invalid input: " ++ String.mk [apos] ++ "question" ++ String.mk [apos] ++
    " must be a non-empty string."

/-- Message of the `ValueError` raised when extraction finds no chunks. -/
def noChunksMsg : String :=
  "No valid content chunks found in " ++ String.mk [apos] ++ "results" ++
    String.mk [apos] ++ "."

/-- `check_chunks_relevance` (src/api/tools.py:362-448).  `scorer` is the
external RAGAS `LLMContextPrecisionWithoutReference` call on the extracted
chunks and the question; `Except.error` is a raised exception rendered as
its message string.  Every raise inside the `try` block lands in the
fail-open `except` clause. -/
def check_chunks_relevance (results question : String)
    (scorer : List String → String → Except String ℚ) : RelevanceVerdict :=
  if results = "" then relevanceFailOpen invalidResultsMsg
  else if question = "" then relevanceFailOpen invalidQuestionMsg
  else
    let docs := extractChunks results
    if docs = [] then relevanceFailOpen noChunksMsg
    else
      match scorer docs question with
      | Except.error e => relevanceFailOpen e
      | Except.ok score =>
        { error := none
          chunk_relevance_score := if score > 1/2 then "yes" else "no"
          chunk_relevance_value := score }

/-! ### Emergency detector: `detect_emergency` (src/api/tools.py:511-613)

The fifteen patterns of `emergency_patterns` use only literals, literal
alternations, `.*`/`.*?` gaps (no `re.DOTALL`, so a gap never crosses a
newline), `\d{n,}` digit runs, and single-character classes.  `Pat` is
this token alphabet and `matchP`/`searchP` give `re.search` existence
semantics: laziness and greediness do not change whether a match exists. -/

/-- One token of an emergency pattern. -/
inductive Pat where
  | lit (s : List Char)
  | alt (ss : List (List Char))
  | gap
  | digits (n : Nat)
  | range (lo hi : Char)
deriving DecidableEq, Repr

/-- Termination weight of a token. -/
def patWt : Pat → Nat
  | .digits n => n + 1
  | _ => 1

/-- Termination weight of a token list. -/
def wts (ps : List Pat) : Nat := (ps.map patWt).sum

/-- Fuel-driven matcher: does the token list match some prefix of `l`?
`gap` consumes any run of non-newline characters, `digits n` consumes at
least `n` ASCII digits.  The fuel only forces structural recursion; any
fuel above `l.length + wts ps` gives the same answer (`matchF_congr`). -/
def matchF : Nat → List Pat → List Char → Bool
  | 0, _, _ => false
  | _ + 1, [], _ => true
  | fuel + 1, .lit s :: ps, l => s.isPrefixOf l && matchF fuel ps (l.drop s.length)
  | fuel + 1, .alt ss :: ps, l =>
    ss.any (fun s => s.isPrefixOf l && matchF fuel ps (l.drop s.length))
  | fuel + 1, .gap :: ps, [] => matchF fuel ps []
  | fuel + 1, .gap :: ps, c :: t =>
    matchF fuel ps (c :: t) || (c != '\n' && matchF fuel (.gap :: ps) t)
  | fuel + 1, .digits 0 :: ps, [] => matchF fuel ps []
  | fuel + 1, .digits 0 :: ps, c :: t =>
    matchF fuel ps (c :: t) || (c.isDigit && matchF fuel (.digits 0 :: ps) t)
  | _ + 1, .digits (_ + 1) :: _, [] => false
  | fuel + 1, .digits (n + 1) :: ps, c :: t => c.isDigit && matchF fuel (.digits n :: ps) t
  | _ + 1, .range _ _ :: _, [] => false
  | fuel + 1, .range lo hi :: ps, c :: t =>
    decide (lo ≤ c) && decide (c ≤ hi) && matchF fuel ps t

/-- The matcher at its canonical (always sufficient) fuel. -/
def matchP (ps : List Pat) (l : List Char) : Bool :=
  matchF (l.length + wts ps + 1) ps l

/-- `re.search`: does the token list match starting at any position? -/
def searchP (ps : List Pat) : List Char → Bool
  | [] => matchP ps []
  | c :: t => matchP ps (c :: t) || searchP ps t

/-- The `severe_hyperglycemia` pattern list (src/api/tools.py:535-539). -/
def hyperglycemiaPatterns : List (List Pat) :=
  [ [Pat.lit ("blood sugar ".data),
     Pat.alt [("over".data), ("above".data), ("more than".data)],
     Pat.lit (" ".data), Pat.digits 3],
    [Pat.lit ("glucose".data), Pat.gap, Pat.digits 3],
    [Pat.digits 3, Pat.gap, Pat.alt [("blood sugar".data), ("glucose".data)]] ]

/-- The `severe_hypoglycemia` pattern list (src/api/tools.py:540-544). -/
def hypoglycemiaPatterns : List (List Pat) :=
  [ [Pat.lit ("blood sugar ".data),
     Pat.alt [("under".data), ("below".data), ("less than".data)],
     Pat.lit (" ".data), Pat.alt [("40".data), ("30".data), ("20".data)]],
    [Pat.lit ("glucose".data), Pat.gap, Pat.range '1' '3', Pat.range '0' '9'],
    [Pat.alt [("unconscious".data), ("passing out".data), ("fainted".data)],
     Pat.gap, Pat.alt [("diabetes".data), ("sugar".data)]] ]

/-- The `dka_symptoms` pattern list (src/api/tools.py:545-550). -/
def dkaPatterns : List (List Pat) :=
  [ [Pat.lit ("fruity".data), Pat.gap, Pat.alt [("breath".data), ("smell".data)]],
    [Pat.alt [("vomiting".data), ("nausea".data)],
     Pat.gap, Pat.alt [("diabetes".data), ("sugar".data)]],
    [Pat.alt [("rapid".data), ("fast".data)], Pat.lit (" breathing".data),
     Pat.gap, Pat.alt [("diabetes".data), ("sugar".data)]],
    [Pat.alt [("diabetic ketoacidosis".data), ("dka".data)]] ]

/-- The `cardiac` pattern list (src/api/tools.py:551-555). -/
def cardiacPatterns : List (List Pat) :=
  [ [Pat.lit ("chest pain".data), Pat.gap, Pat.alt [("diabetes".data), ("diabetic".data)]],
    [Pat.lit ("heart attack".data), Pat.gap, Pat.alt [("diabetes".data), ("sugar".data)]],
    [Pat.lit ("difficulty breathing".data), Pat.gap,
     Pat.alt [("diabetes".data), ("diabetic".data)]] ]

/-- The `severe_confusion` pattern list (src/api/tools.py:556-559);
`can\'?t` is expanded into the alternation of its two spellings. -/
def confusionPatterns : List (List Pat) :=
  [ [Pat.alt [("confused".data), ("disoriented".data), ("delirious".data)],
     Pat.gap, Pat.alt [("diabetes".data), ("sugar".data)]],
    [Pat.lit ("can".data), Pat.alt [[apos], ([] : List Char)], Pat.lit ("t ".data),
     Pat.alt [("think".data), ("focus".data)],
     Pat.gap, Pat.alt [("diabetes".data), ("sugar".data)]] ]

/-- The ordered `emergency_patterns` dictionary (src/api/tools.py:534-560). -/
def emergencyPatterns : List (String × List (List Pat)) :=
  [ ("severe_hyperglycemia", hyperglycemiaPatterns),
    ("severe_hypoglycemia", hypoglycemiaPatterns),
    ("dka_symptoms", dkaPatterns),
    ("cardiac", cardiacPatterns),
    ("severe_confusion", confusionPatterns) ]

/-- The dictionary returned by `detect_emergency`. -/
structure EmergencyScanResult where
  is_emergency : Bool
  emergency_types : List String
  emergency_response : Option String
deriving Repr

/-- The per-category explanation table of `_format_emergency_reasons`
(src/api/tools.py:604-613). -/
def emergencyExplanations : List (String × String) :=
  [ ("severe_hyperglycemia",
     "- Blood sugar over 400 mg/dL can lead to diabetic ketoacidosis (DKA), a life-threatening condition"),
    ("severe_hypoglycemia",
     "- Blood sugar under 40 mg/dL can cause seizures, loss of consciousness, or death"),
    ("dka_symptoms",
     "- Diabetic ketoacidosis is a medical emergency requiring immediate hospitalization"),
    ("cardiac",
     "- Diabetes increases heart attack risk; chest pain requires immediate evaluation"),
    ("severe_confusion",
     "- Severe confusion with diabetes may indicate dangerous blood sugar levels") ]

/-- `_format_emergency_reasons` (src/api/tools.py:604-613). -/
def formatEmergencyReasons (emergency_types : List String) : String :=
  String.intercalate ("\n")
    (emergency_types.map (fun et =>
      match emergencyExplanations.lookup et with
      | some s => s
      | none => "- " ++ et))

/-- The fixed emergency-response template of `detect_emergency`
(src/api/tools.py:571-589), with the matched categories interpolated. -/
def emergencyResponse (emergency_types : List String) : String :=
  "🚨 **MEDICAL EMERGENCY DETECTED** 🚨\n\nBased on your message, you may be experiencing a medical emergency related to diabetes.\n\n**IMMEDIATE ACTIONS REQUIRED:**\n1. **CALL 911** or your local emergency number immediately\n2. If you have a glucagon kit (for low blood sugar), use it now\n3. Do NOT drive yourself - wait for emergency services\n4. Stay with someone if possible\n5. Have your medications and medical information ready\n\n**Why this is urgent:**\n"
    ++ formatEmergencyReasons emergency_types
    ++ "\n\n**This is an AI assistant. This is NOT a substitute for professional medical care.**\n**Please seek immediate medical attention.**\n\nNational Diabetes Emergency Hotline: 1-800-DIABETES (1-800-342-2383)\n"

/-- The category loop of `detect_emergency` (src/api/tools.py:562-567):
a category is appended once as soon as one of its patterns matches (the
inner loop breaks after the first hit). -/
def detectLoop (q : List Char) :
    List (String × List (List Pat)) → List String → List String
  | [], acc => acc
  | (name, pats) :: rest, acc =>
    detectLoop q rest
      (if pats.any (fun ps => searchP ps q) then acc ++ [name] else acc)

/-- `detect_emergency` (src/api/tools.py:511-601). -/
def detect_emergency (query : String) : EmergencyScanResult :=
  let detected := detectLoop (pyLower query.data) emergencyPatterns []
  if detected.isEmpty then
    { is_emergency := false, emergency_types := [], emergency_response := none }
  else
    { is_emergency := true, emergency_types := detected,
      emergency_response := some (emergencyResponse detected) }

/-! ### Medication safety checker: `check_medication_safety`
(src/api/tools.py:616-703) -/

/-- One entry of the static `interaction_db`. -/
structure MedInfo where
  contraindications : List String
  interactions : List String
  warnings : String
deriving Repr

/-- The static diabetes-medication interaction table
(src/api/tools.py:641-667). -/
def interaction_db : List (String × MedInfo) :=
  [ ("metformin",
     { contraindications := ["kidney disease", "renal failure", "dialysis", "contrast dye", "iodine"],
       interactions := ["alcohol", "excessive alcohol", "diuretic"],
       warnings := "Metformin should be stopped before surgery or contrast imaging procedures." }),
    ("insulin",
     { contraindications := ["hypoglycemia", "low blood sugar"],
       interactions := ["beta blocker", "propranolol", "ace inhibitor"],
       warnings := "Insulin dosing must be carefully managed to avoid severe hypoglycemia." }),
    ("glipizide",
     { contraindications := ["sulfa allergy"],
       interactions := ["warfarin", "coumadin", "nsaid", "ibuprofen"],
       warnings := "Sulfonylureas like glipizide can cause hypoglycemia, especially with missed meals." }),
    ("glyburide",
     { contraindications := ["liver disease", "sulfa allergy"],
       interactions := ["warfarin", "coumadin", "nsaid"],
       warnings := "Glyburide has higher hypoglycemia risk than other sulfonylureas." }),
    ("sitagliptin",
     { contraindications := ["pancreatitis", "kidney disease"],
       interactions := ["digoxin"],
       warnings := "DPP-4 inhibitors rarely may increase pancreatitis risk." }) ]

/-- The contraindication warning line (src/api/tools.py:680-683); the two
adjacent f-strings of the source concatenate into one message. -/
def contraindicationWarning (medication contraindication : String) : String :=
  "⚠️ **WARNING**: " ++ medication ++ " may not be safe with " ++ contraindication ++
    ". Please consult your doctor before making any changes to your medications."

/-- The interaction warning line (src/api/tools.py:688-691). -/
def interactionWarning (medication interaction : String) : String :=
  "⚠️ **INTERACTION ALERT**: " ++ medication ++ " may interact with " ++ interaction ++
    ". Discuss this with your pharmacist or doctor."

/-- The general note line (src/api/tools.py:696-698). -/
def generalNote (warnings : String) : String := "ℹ️ **Note**: " ++ warnings

/-- The concern keywords triggering the general note (src/api/tools.py:694). -/
def warningKeywords : List String := ["side effect", "problem", "issue", "concern"]

/-- Python's substring test `needle in hay`. -/
def containsSub (needle hay : List Char) : Bool := (findSub needle hay).isSome

/-- Warnings contributed by one medication: for every known drug whose name
is a substring of the lowered medication, the matching contraindications,
then the matching interactions, then the general note when a concern
keyword occurs in the lowered query (src/api/tools.py:671-698). -/
def medWarnings (medication : String) (query_lower : List Char) : List String :=
  interaction_db.foldl
    (fun acc kv =>
      if containsSub kv.1.data (pyLower medication.data) then
        acc
          ++ (kv.2.contraindications.filter
                (fun c => containsSub c.data query_lower)).map
              (fun c => contraindicationWarning medication c)
          ++ (kv.2.interactions.filter
                (fun i => containsSub i.data query_lower)).map
              (fun i => interactionWarning medication i)
          ++ (if warningKeywords.any (fun kw => containsSub kw.data query_lower)
              then [generalNote kv.2.warnings] else [])
      else acc)
    []

/-- The dictionary returned by `check_medication_safety`. -/
structure MedicationSafetyResult where
  safety_warnings : List String
  has_concerns : Bool
deriving DecidableEq, Repr

/-- `check_medication_safety` (src/api/tools.py:616-703).  An empty
medication list short-circuits before the query is even lowered. -/
def check_medication_safety (medications : List String) (query : String) :
    MedicationSafetyResult :=
  match medications with
  | [] => { safety_warnings := [], has_concerns := false }
  | _ :: _ =>
    let query_lower := pyLower query.data
    let safety_warnings :=
      medications.foldl (fun acc m => acc ++ medWarnings m query_lower) []
    { safety_warnings := safety_warnings,
      has_concerns := decide (0 < safety_warnings.length) }

/-! ### Incremental scraper: the per-document loop body of
`incremental_scrape_diabetes_webmd`
(src/kb/data-ingestion/web-2-s3/diabetes_scraper_scheduler.py:289-366)

The MD5 hash, the wall clock, and S3 are external; the hash is an oracle
argument, the timestamp a string argument, and the S3 `put_object` calls
are accumulated in a write log inside the state. -/

/-- The persisted tracker (diabetes_scraper_scheduler.py:22-27); the Python
sets are modelled as duplicate-free lists via `setAdd`. -/
structure ContentTracker where
  url_hashes : List String
  content_hashes : List String
  last_run : String
  total_documents : Nat
deriving DecidableEq, Repr

/-- Python `set.add`: insert if absent. -/
def setAdd (s : List String) (x : String) : List String :=
  if x ∈ s then s else s ++ [x]

/-- One search result handed to the loop, with the content already
resolved from `raw_content`/`content` and the tracker flags from
`result.get('is_updated'/'is_new', False)`. -/
structure ScrapeDoc where
  url : String
  title : String
  content : String
  is_updated : Bool
  is_new : Bool
deriving DecidableEq, Repr

/-- One `s3_client.put_object` call for a document: the object key and the
metadata identifying the stored document. -/
structure S3Write where
  key : String
  source_url : String
  content_hash : String
deriving DecidableEq, Repr

/-- The loop-carried counters, key lists, write log and tracker of
`incremental_scrape_diabetes_webmd`. -/
structure ScrapeState where
  tracker : ContentTracker
  new_documents_scraped : Nat
  updated_documents : Nat
  skipped_existing : Nat
  s3_objects_created : List String
  s3_objects_updated : List String
  s3_writes : List S3Write
deriving DecidableEq, Repr

/-- The `clean_title` sanitisation (diabetes_scraper_scheduler.py:317-318):
keep the alphanumeric/space/dash/underscore characters of the first fifty
title characters, strip, then replace spaces by underscores. -/
def sanitizeTitle (title : String) : String :=
  String.mk
    (((title.data.take 50).filter
        (fun c => c.isAlphanum || c == ' ' || c == '-' || c == '_')
      |> pyStrip).map (fun c => if c == ' ' then '_' else c))

/-- The object key of a stored document
(diabetes_scraper_scheduler.py:316-320). -/
def scrapeObjectKey (s3_folder timestamp url_hash : String) (title : String) : String :=
  s3_folder ++ "/" ++ timestamp ++ "_" ++ String.mk (url_hash.data.take 8) ++ "_"
    ++ sanitizeTitle title ++ ".json"

/-- The body of `for result in search_results`
(diabetes_scraper_scheduler.py:289-363): skip documents without a URL;
skip (counting `skipped_existing`) documents whose content hash is already
tracked unless `force_update` is set; otherwise store the document, record
the write, and update tracker hashes, counters and key lists. -/
def processDocument (md5 : String → String) (timestamp s3_folder : String)
    (force_update : Bool) (st : ScrapeState) (doc : ScrapeDoc) : ScrapeState :=
  if doc.url = "" then st
  else
    let url_hash := md5 doc.url
    let content_hash := md5 doc.content
    if !force_update && content_hash ∈ st.tracker.content_hashes then
      { st with skipped_existing := st.skipped_existing + 1 }
    else
      let object_key := scrapeObjectKey s3_folder timestamp url_hash doc.title
      let tracker' :=
        { st.tracker with
            url_hashes := setAdd st.tracker.url_hashes url_hash,
            content_hashes := setAdd st.tracker.content_hashes content_hash,
            total_documents := st.tracker.total_documents + 1 }
      if doc.is_updated then
        { st with
            tracker := tracker',
            updated_documents := st.updated_documents + 1,
            s3_objects_updated := st.s3_objects_updated ++ [object_key],
            s3_writes := st.s3_writes ++ [⟨object_key, doc.url, md5 doc.content⟩] }
      else
        { st with
            tracker := tracker',
            new_documents_scraped := st.new_documents_scraped + 1,
            s3_objects_created := st.s3_objects_created ++ [object_key],
            s3_writes := st.s3_writes ++ [⟨object_key, doc.url, md5 doc.content⟩] }

/-! ### Web fallback search and knowledge-base retrieval
(`medical_web_search`, src/api/tools.py:451-508;
`query_diabetes_knowledge`, src/api/tools.py:186-257)

Both functions talk to external services; the service is an oracle
argument and each embedding returns the output string together with the
list of external requests it issued (empty when the configuration check
fails before any call). -/

/-- Two-decimal rendering of a rational score, the `:.2f` format applied
to the relevance scores (rounds half away from zero where Python uses
round-half-even; the difference does not affect any property proved here). -/
def format2f (q : ℚ) : String :=
  let n : Int := ⌊q * 100 + 1/2⌋
  toString (n / 100) ++ "." ++ (if n % 100 < 10 then "0" else "") ++ toString (n % 100)

/-- One result dictionary of the Tavily search, with the `.get` defaults of
src/api/tools.py:494-497 already applied. -/
structure WebResult where
  title : String
  content : String
  url : String
  score : ℚ
deriving DecidableEq, Repr

/-- The formatted block for the `idx`-th web result
(src/api/tools.py:499-502). -/
def formatWebResult (idx : Nat) (r : WebResult) : String :=
  "**Source " ++ toString idx ++ "** (relevance: " ++ format2f r.score ++ ")\n"
    ++ "**Title:** " ++ r.title ++ "\n"
    ++ r.content ++ "\n\n"
    ++ "*Reference: " ++ r.url ++ "*\n\n"

/-- The formatted blocks of all returned results, enumerated from one. -/
def medicalWebSearchEntries (results : List WebResult) : List String :=
  (results.enumFrom 1).map (fun p => formatWebResult p.1 p.2)

/-- `medical_web_search` (src/api/tools.py:451-508).  `search` is the
external Tavily tool constructed with `k=3`; a raised exception is its
message.  The second component is the list of queries sent to the external
service. -/
def medical_web_search (tavily_api_key : String)
    (search : String → Except String (List WebResult)) (query : String) :
    String × List String :=
  if tavily_api_key.length = 0 then
    ("Medical web search functionality is not available because there is no API Key.", [])
  else
    match search query with
    | Except.error e => ("Error performing medical web search: " ++ e, [query])
    | Except.ok results =>
      (pyStripStr ("**Web Search Results:**\n\n"
          ++ String.join (medicalWebSearchEntries results)), [query])

/-- One retrieval result of the Bedrock knowledge base, with the `.get`
defaults of src/api/tools.py:235-243 applied. -/
structure KBResult where
  score : ℚ
  content : String
  uri : String
deriving DecidableEq, Repr

/-- The body of the results text (src/api/tools.py:234-247): results are
enumerated from one over the full list, and those below the minimum score
contribute nothing while still advancing the index. -/
def formatKBResults (results : List KBResult) (min_score : ℚ) : String :=
  String.join
    ((results.enumFrom 1).map (fun p =>
      if p.2.score < min_score then ""
      else
        "**Source " ++ toString p.1 ++ "** (relevance: " ++ format2f p.2.score ++ ")\n"
          ++ p.2.content ++ "\n\n"
          ++ "*Reference: " ++ p.2.uri ++ "*\n\n"))

/-- `query_diabetes_knowledge` (src/api/tools.py:186-257).  `retrieve` is
the external Bedrock retrieval; the empty result list also covers a
response without a `retrievalResults` key.  The second component is the
list of retrieval queries sent to the external service. -/
def query_diabetes_knowledge (knowledge_base_id : String) (min_score : ℚ)
    (retrieve : String → Except String (List KBResult)) (question : String) :
    String × List String :=
  if knowledge_base_id = "" then
    ("Diabetes knowledge base is not configured. Please contact your administrator.", [])
  else
    match retrieve question with
    | Except.error e => ("Error accessing diabetes knowledge base: " ++ e, [question])
    | Except.ok results =>
      if results = [] then
        ("No relevant diabetes information found for your question. Please try rephrasing or ask a different question.",
         [question])
      else
        let body := formatKBResults results min_score
        if body = "" then
          ("No sufficiently relevant diabetes information found. Please try rephrasing your question.",
           [question])
        else
          (pyStripStr ("Based on medical knowledge sources:\n\n" ++ body), [question])

/-! ### Claim-side predicates -/

/-- `needle` occurs as a substring of `hay`. -/
def containsStr (hay needle : String) : Prop := needle.data <:+: hay.data

/-- The (case-normalised) query states a blood-glucose value `n` in one of
the three supported severe-hyperglycemia phrasings of
src/api/tools.py:535-539: `blood sugar (over|above|more than) <n>`,
`glucose … <n>`, or `<n> … (blood sugar|glucose)`, where `…` stands for
any run of non-newline characters. -/
def StatesGlucoseValue (n : Nat) (q : List Char) : Prop :=
  (∃ pre w post, w ∈ [("over".data), ("above".data), ("more than".data)] ∧
     q = pre ++ ("blood sugar ".data) ++ w ++ (" ".data) ++ decimalRepr n ++ post) ∨
  (∃ pre mid post, (∀ c ∈ mid, c ≠ '\n') ∧
     q = pre ++ ("glucose".data) ++ mid ++ decimalRepr n ++ post) ∨
  (∃ pre mid post kw, kw ∈ [("blood sugar".data), ("glucose".data)] ∧
     (∀ c ∈ mid, c ≠ '\n') ∧
     q = pre ++ decimalRepr n ++ mid ++ kw ++ post)

/-! ### Lemmas about the pattern matcher -/

@[simp] theorem wts_nil : wts [] = 0 := rfl

@[simp] theorem wts_cons (p : Pat) (ps : List Pat) :
    wts (p :: ps) = patWt p + wts ps := by
  simp [wts]

/-- The fuel of `matchF` is irrelevant above the measure bound. -/
theorem matchF_congr : ∀ (f₁ f₂ : Nat) (ps : List Pat) (l : List Char),
    l.length + wts ps < f₁ → l.length + wts ps < f₂ →
    matchF f₁ ps l = matchF f₂ ps l
  | 0, _, _, _, h₁, _ => absurd h₁ (Nat.not_lt_zero _)
  | _ + 1, 0, _, _, _, h₂ => absurd h₂ (Nat.not_lt_zero _)
  | _ + 1, _ + 1, [], _, _, _ => rfl
  | f₁ + 1, f₂ + 1, .lit s :: ps, l, h₁, h₂ => by
    simp only [wts_cons, patWt] at h₁ h₂
    simp only [matchF]
    rw [matchF_congr f₁ f₂ ps (l.drop s.length)
      (by simp only [List.length_drop]; omega)
      (by simp only [List.length_drop]; omega)]
  | f₁ + 1, f₂ + 1, .alt ss :: ps, l, h₁, h₂ => by
    simp only [wts_cons, patWt] at h₁ h₂
    simp only [matchF]
    exact congrArg ss.any (funext fun s => by
      rw [matchF_congr f₁ f₂ ps (l.drop s.length)
        (by simp only [List.length_drop]; omega)
        (by simp only [List.length_drop]; omega)])
  | f₁ + 1, f₂ + 1, .gap :: ps, [], h₁, h₂ => by
    simp only [wts_cons, patWt] at h₁ h₂
    simp only [matchF]
    exact matchF_congr f₁ f₂ ps [] (by simp; omega) (by simp; omega)
  | f₁ + 1, f₂ + 1, .gap :: ps, c :: t, h₁, h₂ => by
    simp only [wts_cons, patWt, List.length_cons] at h₁ h₂
    simp only [matchF]
    rw [matchF_congr f₁ f₂ ps (c :: t)
        (by simp only [List.length_cons]; omega)
        (by simp only [List.length_cons]; omega),
      matchF_congr f₁ f₂ (.gap :: ps) t
        (by simp only [wts_cons, patWt]; omega)
        (by simp only [wts_cons, patWt]; omega)]
  | f₁ + 1, f₂ + 1, .digits 0 :: ps, [], h₁, h₂ => by
    simp only [wts_cons, patWt] at h₁ h₂
    simp only [matchF]
    exact matchF_congr f₁ f₂ ps [] (by simp; omega) (by simp; omega)
  | f₁ + 1, f₂ + 1, .digits 0 :: ps, c :: t, h₁, h₂ => by
    simp only [wts_cons, patWt, List.length_cons] at h₁ h₂
    simp only [matchF]
    rw [matchF_congr f₁ f₂ ps (c :: t)
        (by simp only [List.length_cons]; omega)
        (by simp only [List.length_cons]; omega),
      matchF_congr f₁ f₂ (.digits 0 :: ps) t
        (by simp only [wts_cons, patWt]; omega)
        (by simp only [wts_cons, patWt]; omega)]
  | _ + 1, _ + 1, .digits (_ + 1) :: _, [], _, _ => rfl
  | f₁ + 1, f₂ + 1, .digits (n + 1) :: ps, c :: t, h₁, h₂ => by
    simp only [wts_cons, patWt, List.length_cons] at h₁ h₂
    simp only [matchF]
    rw [matchF_congr f₁ f₂ (.digits n :: ps) t
      (by simp only [wts_cons, patWt]; omega)
      (by simp only [wts_cons, patWt]; omega)]
  | _ + 1, _ + 1, .range _ _ :: _, [], _, _ => rfl
  | f₁ + 1, f₂ + 1, .range lo hi :: ps, c :: t, h₁, h₂ => by
    simp only [wts_cons, patWt, List.length_cons] at h₁ h₂
    simp only [matchF]
    rw [matchF_congr f₁ f₂ ps t (by omega) (by omega)]

/-- Any sufficient fuel computes `matchP`. -/
theorem matchF_eq_matchP (fuel : Nat) (ps : List Pat) (l : List Char)
    (h : l.length + wts ps < fuel) : matchF fuel ps l = matchP ps l :=
  matchF_congr fuel (l.length + wts ps + 1) ps l h (Nat.lt_succ_self _)

@[simp] theorem matchP_nil (l : List Char) : matchP [] l = true := rfl

@[simp] theorem matchP_lit (s : List Char) (ps : List Pat) (l : List Char) :
    matchP (.lit s :: ps) l = (s.isPrefixOf l && matchP ps (l.drop s.length)) := by
  show matchF (l.length + wts (.lit s :: ps) + 1) (.lit s :: ps) l = _
  simp only [matchF]
  rw [matchF_eq_matchP _ ps (l.drop s.length)
    (by simp only [List.length_drop, wts_cons, patWt]; omega)]

@[simp] theorem matchP_alt (ss : List (List Char)) (ps : List Pat) (l : List Char) :
    matchP (.alt ss :: ps) l =
      ss.any (fun s => s.isPrefixOf l && matchP ps (l.drop s.length)) := by
  show matchF (l.length + wts (.alt ss :: ps) + 1) (.alt ss :: ps) l = _
  simp only [matchF]
  exact congrArg ss.any (funext fun s => by
    rw [matchF_eq_matchP _ ps (l.drop s.length)
      (by simp only [List.length_drop, wts_cons, patWt]; omega)])

@[simp] theorem matchP_gap_nil (ps : List Pat) : matchP (.gap :: ps) [] = matchP ps [] := by
  show matchF ([].length + wts (.gap :: ps) + 1) (.gap :: ps) [] = _
  simp only [matchF]
  exact matchF_eq_matchP _ ps [] (by simp [patWt])

@[simp] theorem matchP_gap_cons (c : Char) (t : List Char) (ps : List Pat) :
    matchP (.gap :: ps) (c :: t) =
      (matchP ps (c :: t) || (c != '\n' && matchP (.gap :: ps) t)) := by
  show matchF ((c :: t).length + wts (.gap :: ps) + 1) (.gap :: ps) (c :: t) = _
  simp only [matchF]
  rw [matchF_eq_matchP _ ps (c :: t)
      (by simp only [List.length_cons, wts_cons, patWt]; omega),
    matchF_eq_matchP _ (.gap :: ps) t
      (by simp only [List.length_cons, wts_cons, patWt]; omega)]

@[simp] theorem matchP_digits_zero_nil (ps : List Pat) :
    matchP (.digits 0 :: ps) [] = matchP ps [] := by
  show matchF ([].length + wts (.digits 0 :: ps) + 1) (.digits 0 :: ps) [] = _
  simp only [matchF]
  exact matchF_eq_matchP _ ps [] (by simp [patWt])

@[simp] theorem matchP_digits_zero_cons (c : Char) (t : List Char) (ps : List Pat) :
    matchP (.digits 0 :: ps) (c :: t) =
      (matchP ps (c :: t) || (c.isDigit && matchP (.digits 0 :: ps) t)) := by
  show matchF ((c :: t).length + wts (.digits 0 :: ps) + 1) (.digits 0 :: ps) (c :: t) = _
  simp only [matchF]
  rw [matchF_eq_matchP _ ps (c :: t)
      (by simp only [List.length_cons, wts_cons, patWt]; omega),
    matchF_eq_matchP _ (.digits 0 :: ps) t
      (by simp only [List.length_cons, wts_cons, patWt]; omega)]

@[simp] theorem matchP_digits_succ_nil (n : Nat) (ps : List Pat) :
    matchP (.digits (n + 1) :: ps) [] = false := rfl

@[simp] theorem matchP_digits_succ_cons (n : Nat) (c : Char) (t : List Char) (ps : List Pat) :
    matchP (.digits (n + 1) :: ps) (c :: t) =
      (c.isDigit && matchP (.digits n :: ps) t) := by
  show matchF ((c :: t).length + wts (.digits (n + 1) :: ps) + 1)
    (.digits (n + 1) :: ps) (c :: t) = _
  simp only [matchF]
  rw [matchF_eq_matchP _ (.digits n :: ps) t
    (by simp only [List.length_cons, wts_cons, patWt]; omega)]

@[simp] theorem matchP_range_nil (lo hi : Char) (ps : List Pat) :
    matchP (.range lo hi :: ps) [] = false := rfl

@[simp] theorem matchP_range_cons (lo hi c : Char) (t : List Char) (ps : List Pat) :
    matchP (.range lo hi :: ps) (c :: t) =
      (decide (lo ≤ c) && decide (c ≤ hi) && matchP ps t) := by
  show matchF ((c :: t).length + wts (.range lo hi :: ps) + 1)
    (.range lo hi :: ps) (c :: t) = _
  simp only [matchF]
  rw [matchF_eq_matchP _ ps t
    (by simp only [List.length_cons, wts_cons, patWt]; omega)]

theorem prefixOf_append_self : ∀ (s t : List Char), s.isPrefixOf (s ++ t) = true
  | [], _ => by simp [List.isPrefixOf]
  | a :: s, t => by simp [List.isPrefixOf, prefixOf_append_self s t]

theorem matchP_lit_append (s t : List Char) (ps : List Pat) :
    matchP (Pat.lit s :: ps) (s ++ t) = matchP ps t := by
  simp [matchP_lit, prefixOf_append_self, List.drop_left]

theorem matchP_alt_append (s t : List Char) (ss : List (List Char)) (ps : List Pat)
    (hs : s ∈ ss) (hm : matchP ps t = true) :
    matchP (Pat.alt ss :: ps) (s ++ t) = true := by
  simp only [matchP_alt, List.any_eq_true]
  exact ⟨s, hs, by simp [prefixOf_append_self, List.drop_left, hm]⟩

theorem matchP_gap_head (ps : List Pat) (t : List Char)
    (hm : matchP ps t = true) : matchP (Pat.gap :: ps) t = true := by
  cases t with
  | nil => simpa [matchP_gap_nil] using hm
  | cons c t => simp [matchP_gap_cons, hm]

theorem matchP_digits_zero_head (ps : List Pat) (t : List Char)
    (hm : matchP ps t = true) : matchP (Pat.digits 0 :: ps) t = true := by
  cases t with
  | nil => simpa [matchP_digits_zero_nil] using hm
  | cons c t => simp [matchP_digits_zero_cons, hm]

theorem matchP_gap_append : ∀ (mid t : List Char) (ps : List Pat),
    (∀ c ∈ mid, c ≠ '\n') → matchP ps t = true →
    matchP (Pat.gap :: ps) (mid ++ t) = true
  | [], t, ps, _, hm => matchP_gap_head ps t hm
  | c :: mid, t, ps, hmid, hm => by
    have hc : c ≠ '\n' := hmid c (List.mem_cons_self c mid)
    have ih := matchP_gap_append mid t ps
      (fun d hd => hmid d (List.mem_cons_of_mem c hd)) hm
    simp only [List.cons_append, matchP_gap_cons, Bool.or_eq_true, Bool.and_eq_true]
    exact Or.inr ⟨by simpa using hc, ih⟩

theorem matchP_digits_append : ∀ (ds t : List Char) (ps : List Pat) (k : Nat),
    (∀ c ∈ ds, c.isDigit = true) → k ≤ ds.length → matchP ps t = true →
    matchP (Pat.digits k :: ps) (ds ++ t) = true
  | [], t, ps, k, _, hk, hm => by
    have hz : k = 0 := Nat.le_zero.mp (by simpa using hk)
    subst hz
    exact matchP_digits_zero_head ps t hm
  | c :: ds, t, ps, 0, hds, _, hm => by
    have hc : c.isDigit = true := hds c (List.mem_cons_self c ds)
    have ih := matchP_digits_append ds t ps 0
      (fun d hd => hds d (List.mem_cons_of_mem c hd)) (Nat.zero_le _) hm
    simp only [List.cons_append, matchP_digits_zero_cons, Bool.or_eq_true,
      Bool.and_eq_true]
    exact Or.inr ⟨hc, ih⟩
  | c :: ds, t, ps, k + 1, hds, hk, hm => by
    have hc : c.isDigit = true := hds c (List.mem_cons_self c ds)
    have ih := matchP_digits_append ds t ps k
      (fun d hd => hds d (List.mem_cons_of_mem c hd))
      (Nat.succ_le_succ_iff.mp (by simpa using hk)) hm
    simp only [List.cons_append, matchP_digits_succ_cons, Bool.and_eq_true]
    exact ⟨hc, ih⟩

theorem searchP_append (s t : List Char) (ps : List Pat)
    (hm : matchP ps t = true) : searchP ps (s ++ t) = true := by
  induction s with
  | nil =>
    cases t with
    | nil => simpa [searchP] using hm
    | cons c t => simp [searchP, hm]
  | cons a s ih => simp [searchP, ih]

/-! ### Lemmas about decimal notation -/

theorem digitChar_isDigit (d : Nat) (hd : d < 10) : (digitChar d).isDigit = true := by
  interval_cases d <;> decide

theorem decimalReprAux_ne_nil : ∀ (fuel n : Nat), 0 < fuel → decimalReprAux fuel n ≠ []
  | fuel + 1, n, _ => by
    by_cases h : n < 10 <;> simp [decimalReprAux, h]

theorem decimalRepr_ne_nil (n : Nat) : decimalRepr n ≠ [] :=
  decimalReprAux_ne_nil _ _ (Nat.succ_pos n)

theorem decimalReprAux_digits : ∀ (fuel n : Nat), ∀ c ∈ decimalReprAux fuel n, c.isDigit = true
  | 0, _ => by simp [decimalReprAux]
  | fuel + 1, n => by
    by_cases h : n < 10
    · simpa [decimalReprAux, h] using digitChar_isDigit n h
    · intro c hc
      simp only [decimalReprAux, h, if_false, List.mem_append, List.mem_singleton] at hc
      rcases hc with hc | hc
      · exact decimalReprAux_digits fuel (n / 10) c hc
      · subst hc
        exact digitChar_isDigit _ (Nat.mod_lt n (by omega))

theorem decimalRepr_digits (n : Nat) : ∀ c ∈ decimalRepr n, c.isDigit = true :=
  decimalReprAux_digits _ _

theorem decimalReprAux_length_two : ∀ (fuel n : Nat), n < fuel → 10 ≤ n →
    2 ≤ (decimalReprAux fuel n).length
  | fuel + 1, n, hfuel, hn => by
    have h : ¬ n < 10 := by omega
    have hpos : 0 < fuel := by omega
    have hne := decimalReprAux_ne_nil fuel (n / 10) hpos
    have : 0 < (decimalReprAux fuel (n / 10)).length := List.length_pos.mpr hne
    simp only [decimalReprAux, h, if_false, List.length_append, List.length_cons,
      List.length_nil]
    omega

theorem decimalRepr_length_three (n : Nat) (hn : 100 ≤ n) :
    3 ≤ (decimalRepr n).length := by
  have h : ¬ n < 10 := by omega
  have hdiv : 10 ≤ n / 10 := (Nat.le_div_iff_mul_le (by omega)).mpr (by omega)
  have hlt : n / 10 < n := Nat.div_lt_self (by omega) (by omega)
  have h2 := decimalReprAux_length_two n (n / 10) (by omega) hdiv
  unfold decimalRepr
  simp only [decimalReprAux, h, if_false, List.length_append, List.length_cons,
    List.length_nil]
  omega

/-! ### Lemmas about the detection loop -/

theorem detectLoop_acc (q : List Char) :
    ∀ (cats : List (String × List (List Pat))) (acc : List String),
    detectLoop q cats acc = acc ++ detectLoop q cats []
  | [], acc => by simp [detectLoop]
  | (name, pats) :: rest, acc => by
    rw [detectLoop, detectLoop]
    by_cases hb : pats.any (fun ps => searchP ps q) = true
    · rw [if_pos hb, if_pos hb, detectLoop_acc q rest (acc ++ [name]),
        detectLoop_acc q rest ([] ++ [name])]
      simp
    · rw [if_neg hb, if_neg hb, detectLoop_acc q rest acc]

theorem detectLoop_eq_filter (q : List Char) :
    ∀ (cats : List (String × List (List Pat))),
    detectLoop q cats [] =
      (cats.filter (fun cp => cp.2.any (fun ps => searchP ps q))).map Prod.fst
  | [] => by simp [detectLoop]
  | (name, pats) :: rest => by
    rw [detectLoop]
    by_cases hb : pats.any (fun ps => searchP ps q) = true
    · rw [if_pos hb, detectLoop_acc q rest ([] ++ [name]), detectLoop_eq_filter q rest]
      simp only [List.nil_append, List.singleton_append, List.filter_cons]
      simp [hb]
    · rw [if_neg hb, detectLoop_eq_filter q rest]
      simp only [List.filter_cons]
      have hb' : pats.any (fun ps => searchP ps q) = false := by
        simpa using hb
      simp [hb']

theorem detect_emergency_types (query : String) :
    (detect_emergency query).emergency_types =
      (emergencyPatterns.filter
        (fun cp => cp.2.any (fun ps => searchP ps (pyLower query.data)))).map Prod.fst := by
  rw [← detectLoop_eq_filter]
  unfold detect_emergency
  by_cases h : (detectLoop (pyLower query.data) emergencyPatterns []).isEmpty = true
  · simp only [h, if_true]
    rw [List.isEmpty_iff.mp h]
  · simp only [h, if_false]
    simp

theorem detect_emergency_is_emergency (query : String) :
    (detect_emergency query).is_emergency = true ↔
      (detect_emergency query).emergency_types ≠ [] := by
  unfold detect_emergency
  by_cases h : (detectLoop (pyLower query.data) emergencyPatterns []).isEmpty = true
  · simp only [h, if_true]
    simp
  · simp only [h, if_false]
    have := List.isEmpty_iff.not.mp (by simpa using h)
    simpa using this

theorem detect_emergency_response (query : String)
    (h : (detect_emergency query).emergency_types ≠ []) :
    (detect_emergency query).emergency_response =
      some (emergencyResponse (detect_emergency query).emergency_types) := by
  revert h
  unfold detect_emergency
  by_cases h : (detectLoop (pyLower query.data) emergencyPatterns []).isEmpty = true
  · simp only [h, if_true]
    simp
  · simp only [h, if_false]
    intro
    rfl

/-- Helper: in an association list with duplicate-free keys, a key
determines its value. -/
theorem pairKeyUnique {β : Type} : ∀ (l : List (String × β)),
    (l.map Prod.fst).Nodup → ∀ (a : String) (b c : β),
    (a, b) ∈ l → (a, c) ∈ l → b = c
  | [], _, a, b, c, h, _ => absurd h (List.not_mem_nil _)
  | hd :: tl, hn, a, b, c, hb, hc => by
    rw [List.map_cons] at hn
    have hn1 : hd.1 ∉ tl.map Prod.fst := (List.nodup_cons.mp hn).1
    have hn2 : (tl.map Prod.fst).Nodup := (List.nodup_cons.mp hn).2
    rcases List.mem_cons.mp hb with hb1 | hb1 <;>
      rcases List.mem_cons.mp hc with hc1 | hc1
    · exact congrArg Prod.snd (hb1.trans hc1.symm)
    · exfalso
      apply hn1
      have : hd.1 = a := by rw [← hb1]
      rw [this]
      exact List.mem_map.mpr ⟨(a, c), hc1, rfl⟩
    · exfalso
      apply hn1
      have : hd.1 = a := by rw [← hc1]
      rw [this]
      exact List.mem_map.mpr ⟨(a, b), hb1, rfl⟩
    · exact pairKeyUnique tl hn2 a b c hb1 hc1

/-- C3: for every query string that states a blood-glucose value above
400 mg/dL in one of the supported phrasings (for example
`blood sugar over 450`), `detect_emergency` reports an emergency with
`severe_hyperglycemia` among the returned emergency types. -/
theorem detect_emergency_severe_hyperglycemia (query : String) (n : Nat)
    (hn : 400 < n) (h : StatesGlucoseValue n (pyLower query.data)) :
    (detect_emergency query).is_emergency = true ∧
      "severe_hyperglycemia" ∈ (detect_emergency query).emergency_types := by
  have hds : ∀ c ∈ decimalRepr n, c.isDigit = true := decimalRepr_digits n
  have hlen : 3 ≤ (decimalRepr n).length := decimalRepr_length_three n (by omega)
  have hsearch : ∃ ps ∈ hyperglycemiaPatterns,
      searchP ps (pyLower query.data) = true := by
    rcases h with ⟨pre, w, post, hw, heq⟩ | ⟨pre, mid, post, hmid, heq⟩ |
      ⟨pre, mid, post, kw, hkw, hmid, heq⟩
    · refine ⟨[Pat.lit ("blood sugar ".data),
        Pat.alt [("over".data), ("above".data), ("more than".data)],
        Pat.lit (" ".data), Pat.digits 3],
        by simp [hyperglycemiaPatterns], ?_⟩
      simp only [List.append_assoc] at heq
      rw [heq]
      apply searchP_append
      rw [matchP_lit_append]
      exact matchP_alt_append w _ _ _ hw
        (by rw [matchP_lit_append]
            exact matchP_digits_append _ post [] 3 hds hlen (matchP_nil post))
    · refine ⟨[Pat.lit ("glucose".data), Pat.gap, Pat.digits 3],
        by simp [hyperglycemiaPatterns], ?_⟩
      simp only [List.append_assoc] at heq
      rw [heq]
      apply searchP_append
      rw [matchP_lit_append]
      exact matchP_gap_append mid _ _ hmid
        (matchP_digits_append _ post [] 3 hds hlen (matchP_nil post))
    · refine ⟨[Pat.digits 3, Pat.gap,
        Pat.alt [("blood sugar".data), ("glucose".data)]],
        by simp [hyperglycemiaPatterns], ?_⟩
      simp only [List.append_assoc] at heq
      rw [heq]
      apply searchP_append
      exact matchP_digits_append _ _ _ 3 hds hlen
        (matchP_gap_append mid _ _ hmid
          (matchP_alt_append kw post _ [] hkw (matchP_nil post)))
  rcases hsearch with ⟨ps, hmem, hs⟩
  have hany : hyperglycemiaPatterns.any
      (fun p => searchP p (pyLower query.data)) = true :=
    List.any_eq_true.mpr ⟨ps, hmem, hs⟩
  have htypes : "severe_hyperglycemia" ∈ (detect_emergency query).emergency_types := by
    rw [detect_emergency_types]
    exact List.mem_map.mpr
      ⟨("severe_hyperglycemia", hyperglycemiaPatterns),
       List.mem_filter.mpr ⟨by simp [emergencyPatterns], hany⟩, rfl⟩
  exact ⟨(detect_emergency_is_emergency query).mpr (List.ne_nil_of_mem htypes), htypes⟩

/-- Witness for C3 at the query `Blood sugar over 450` and the value 450. -/
theorem detect_emergency_severe_hyperglycemia_witness :
    (detect_emergency ("Blood sugar over 450")).is_emergency = true ∧
      "severe_hyperglycemia" ∈
        (detect_emergency ("Blood sugar over 450")).emergency_types :=
  detect_emergency_severe_hyperglycemia ("Blood sugar over 450") 450 (by omega)
    (Or.inl ⟨[], ("over".data), [], by decide, by decide⟩)

/-- C4: the severe-hyperglycemia patterns accept any run of three or more
digits, so a query stating a blood-glucose value at or below 400 — here
150 — is also flagged as severe hyperglycemia. -/
theorem detect_emergency_matches_value_below_400 :
    150 ≤ 400 ∧
    (detect_emergency
      (String.mk (("blood sugar over ".data) ++ decimalRepr 150))).is_emergency = true ∧
    "severe_hyperglycemia" ∈
      (detect_emergency
        (String.mk (("blood sugar over ".data) ++ decimalRepr 150))).emergency_types := by
  decide

/-- C5: a query on which no pattern of any emergency category matches
yields no emergency, an empty category list and no response text. -/
theorem detect_emergency_no_pattern_match (query : String)
    (h : ∀ cp ∈ emergencyPatterns, ∀ ps ∈ cp.2,
      searchP ps (pyLower query.data) = false) :
    detect_emergency query =
      { is_emergency := false, emergency_types := [], emergency_response := none } := by
  have hfilter : emergencyPatterns.filter
      (fun cp => cp.2.any (fun ps => searchP ps (pyLower query.data))) = [] := by
    rw [List.filter_eq_nil_iff]
    intro cp hcp hany
    rcases List.any_eq_true.mp hany with ⟨ps, hps, hsp⟩
    rw [h cp hcp ps hps] at hsp
    exact Bool.false_ne_true hsp
  have hd : detectLoop (pyLower query.data) emergencyPatterns [] = [] := by
    rw [detectLoop_eq_filter, hfilter]
    rfl
  simp [detect_emergency, hd]

/-- Witness for C5 at the harmless query `hello`. -/
theorem detect_emergency_no_pattern_match_witness :
    detect_emergency ("hello") =
      { is_emergency := false, emergency_types := [], emergency_response := none } :=
  detect_emergency_no_pattern_match ("hello") (by decide)

/-- C6: the detector reports every category with a matching pattern (and
only those), each category at most once, in the fixed category order, and
on any match the response is the fixed template interpolating the matched
categories. -/
theorem detect_emergency_all_matching_categories (query : String) :
    (detect_emergency query).emergency_types.Nodup
    ∧ List.Sublist (detect_emergency query).emergency_types
        ["severe_hyperglycemia", "severe_hypoglycemia", "dka_symptoms",
         "cardiac", "severe_confusion"]
    ∧ (∀ name pats, (name, pats) ∈ emergencyPatterns →
        ((name ∈ (detect_emergency query).emergency_types) ↔
          pats.any (fun ps => searchP ps (pyLower query.data)) = true))
    ∧ ((detect_emergency query).emergency_types ≠ [] →
        (detect_emergency query).emergency_response =
          some (emergencyResponse (detect_emergency query).emergency_types)) := by
  have htypes := detect_emergency_types query
  have hkeys : (emergencyPatterns.map Prod.fst).Nodup := by decide
  have hsub : List.Sublist (detect_emergency query).emergency_types
      (emergencyPatterns.map Prod.fst) := by
    rw [htypes]
    exact List.Sublist.map Prod.fst (List.filter_sublist emergencyPatterns)
  refine ⟨List.Nodup.sublist hsub hkeys, ?_, ?_, detect_emergency_response query⟩
  · have : emergencyPatterns.map Prod.fst =
        ["severe_hyperglycemia", "severe_hypoglycemia", "dka_symptoms",
         "cardiac", "severe_confusion"] := rfl
    rw [← this]
    exact hsub
  · intro name pats hmem
    constructor
    · intro hin
      rw [htypes] at hin
      rcases List.mem_map.mp hin with ⟨cp, hcp, hfst⟩
      have hcp' := List.mem_filter.mp hcp
      have hpair : (name, cp.2) ∈ emergencyPatterns := by
        have : cp = (name, cp.2) := by
          rw [← hfst]
        rw [← this]
        exact hcp'.1
      have : cp.2 = pats := pairKeyUnique emergencyPatterns hkeys name cp.2 pats hpair hmem
      rw [← this]
      exact hcp'.2
    · intro hany
      rw [htypes]
      exact List.mem_map.mpr ⟨(name, pats), List.mem_filter.mpr ⟨hmem, hany⟩, rfl⟩

/-- Witness for C6 at the query `dka chest pain diabetes`, which matches
the DKA and cardiac categories. -/
theorem detect_emergency_all_matching_categories_witness :
    ("dka_symptoms" ∈ (detect_emergency ("dka chest pain diabetes")).emergency_types ↔
      dkaPatterns.any
        (fun ps => searchP ps (pyLower ("dka chest pain diabetes").data)) = true)
    ∧ (detect_emergency ("dka chest pain diabetes")).emergency_response =
        some (emergencyResponse
          (detect_emergency ("dka chest pain diabetes")).emergency_types) :=
  ⟨(detect_emergency_all_matching_categories ("dka chest pain diabetes")).2.2.1
      "dka_symptoms" dkaPatterns (by decide),
   (detect_emergency_all_matching_categories ("dka chest pain diabetes")).2.2.2
      (by decide)⟩

/-! ### Relevance scorer claims -/

/-- C1: whenever extraction finds no `Score:/Content:` chunks, or the
scoring call raises, `check_chunks_relevance` does not propagate the
exception: it reports the error as a string with verdict `yes` and
value 0.5. -/
theorem check_chunks_relevance_fails_open (results question : String)
    (scorer : List String → String → Except String ℚ)
    (h : extractChunks results = [] ∨
      ∃ e, scorer (extractChunks results) question = Except.error e) :
    ∃ msg, (check_chunks_relevance results question scorer).error = some msg ∧
      (check_chunks_relevance results question scorer).chunk_relevance_score = "yes" ∧
      (check_chunks_relevance results question scorer).chunk_relevance_value = 1/2 := by
  unfold check_chunks_relevance
  by_cases h1 : results = ""
  · exact ⟨invalidResultsMsg, by simp [h1, relevanceFailOpen]⟩
  · by_cases h2 : question = ""
    · exact ⟨invalidQuestionMsg, by simp [h1, h2, relevanceFailOpen]⟩
    · by_cases h3 : extractChunks results = []
      · exact ⟨noChunksMsg, by simp [h1, h2, h3, relevanceFailOpen]⟩
      · rcases h with h | ⟨e, he⟩
        · exact absurd h h3
        · exact ⟨e, by simp [h1, h2, h3, he, relevanceFailOpen]⟩

/-- Witness for C1: a results string without any chunk block, under a
scorer that would succeed. -/
theorem check_chunks_relevance_fails_open_witness :
    ∃ msg, (check_chunks_relevance ("no valid blocks") ("a question")
        (fun _ _ => Except.ok 1)).error = some msg ∧
      (check_chunks_relevance ("no valid blocks") ("a question")
        (fun _ _ => Except.ok 1)).chunk_relevance_score = "yes" ∧
      (check_chunks_relevance ("no valid blocks") ("a question")
        (fun _ _ => Except.ok 1)).chunk_relevance_value = 1/2 :=
  check_chunks_relevance_fails_open ("no valid blocks") ("a question")
    (fun _ _ => Except.ok 1) (Or.inl (by decide))

/-- C2: on a successful scoring run the returned value is the oracle score
and the binary verdict is `yes` exactly when the score exceeds 0.5; a
score of exactly 0.5 yields `no`. -/
theorem check_chunks_relevance_strict_threshold (results question : String)
    (scorer : List String → String → Except String ℚ) (score : ℚ)
    (h1 : results ≠ "") (h2 : question ≠ "") (h3 : extractChunks results ≠ [])
    (h4 : scorer (extractChunks results) question = Except.ok score) :
    (check_chunks_relevance results question scorer).error = none ∧
    (check_chunks_relevance results question scorer).chunk_relevance_value = score ∧
    ((check_chunks_relevance results question scorer).chunk_relevance_score = "yes" ↔
      1/2 < score) ∧
    (score = 1/2 →
      (check_chunks_relevance results question scorer).chunk_relevance_score = "no") := by
  have key : check_chunks_relevance results question scorer =
      { error := none,
        chunk_relevance_score := if score > 1/2 then "yes" else "no",
        chunk_relevance_value := score } := by
    unfold check_chunks_relevance
    simp [h1, h2, h3, h4]
  rw [key]
  refine ⟨rfl, rfl, ?_, ?_⟩
  · by_cases hlt : 1/2 < score
    · simp [hlt]
    · rw [if_neg (by simpa using hlt)]
      show ("no" = "yes") ↔ 1/2 < score
      constructor
      · intro hno
        exact absurd hno (by decide)
      · intro hlt2
        exact absurd hlt2 hlt
  · intro heq
    subst heq
    simp

/-- Witness for C2 at a well-formed results string and a score of exactly
0.5, exercising the strict threshold. -/
theorem check_chunks_relevance_strict_threshold_witness :
    (check_chunks_relevance ("Score: 0.9\nContent: info") ("q")
        (fun _ _ => Except.ok (1/2))).error = none ∧
    (check_chunks_relevance ("Score: 0.9\nContent: info") ("q")
        (fun _ _ => Except.ok (1/2))).chunk_relevance_value = 1/2 ∧
    ((check_chunks_relevance ("Score: 0.9\nContent: info") ("q")
        (fun _ _ => Except.ok (1/2))).chunk_relevance_score = "yes" ↔
      (1:ℚ)/2 < 1/2) ∧
    ((1:ℚ)/2 = 1/2 →
      (check_chunks_relevance ("Score: 0.9\nContent: info") ("q")
        (fun _ _ => Except.ok (1/2))).chunk_relevance_score = "no") :=
  check_chunks_relevance_strict_threshold ("Score: 0.9\nContent: info") ("q")
    (fun _ _ => Except.ok (1/2)) (1/2) (by decide) (by decide) (by decide) rfl

/-! ### Medication, scraper, web search and configuration claims -/

/-- C7: with an empty medication list the safety checker returns no
warnings and no concerns, whatever the query says. -/
theorem check_medication_safety_empty_list (query : String) :
    check_medication_safety [] query =
      { safety_warnings := [], has_concerns := false } := rfl

/-- C8: a document whose content hash is already tracked is skipped when
`force_update` is off: `skipped_existing` goes up by one and the write
log, the tracker and every other field are untouched. -/
theorem incremental_scrape_skips_known_hash (md5 : String → String)
    (timestamp s3_folder : String) (st : ScrapeState) (doc : ScrapeDoc)
    (hurl : doc.url ≠ "") (hknown : md5 doc.content ∈ st.tracker.content_hashes) :
    processDocument md5 timestamp s3_folder false st doc =
      { st with skipped_existing := st.skipped_existing + 1 } ∧
    (processDocument md5 timestamp s3_folder false st doc).s3_writes = st.s3_writes ∧
    (processDocument md5 timestamp s3_folder false st doc).tracker = st.tracker ∧
    (processDocument md5 timestamp s3_folder false st doc).skipped_existing =
      st.skipped_existing + 1 := by
  have key : processDocument md5 timestamp s3_folder false st doc =
      { st with skipped_existing := st.skipped_existing + 1 } := by
    unfold processDocument
    rw [if_neg hurl]
    simp [hknown]
  exact ⟨key, by rw [key], by rw [key], by rw [key]⟩

/-- Witness for C8: a one-hash tracker and a document carrying exactly the
tracked content, under an identity stand-in for the hash oracle. -/
theorem incremental_scrape_skips_known_hash_witness :
    processDocument (fun s => s) ("20260101_000000") ("diabetes-webmd") false
        { tracker := { url_hashes := [], content_hashes := ["known content"],
                       last_run := "2026-01-01", total_documents := 1 },
          new_documents_scraped := 0, updated_documents := 0, skipped_existing := 0,
          s3_objects_created := [], s3_objects_updated := [], s3_writes := [] }
        { url := "https-example", title := "t", content := "known content",
          is_updated := false, is_new := true } =
      { tracker := { url_hashes := [], content_hashes := ["known content"],
                     last_run := "2026-01-01", total_documents := 1 },
        new_documents_scraped := 0, updated_documents := 0, skipped_existing := 1,
        s3_objects_created := [], s3_objects_updated := [], s3_writes := [] } ∧
    (processDocument (fun s => s) ("20260101_000000") ("diabetes-webmd") false
        { tracker := { url_hashes := [], content_hashes := ["known content"],
                       last_run := "2026-01-01", total_documents := 1 },
          new_documents_scraped := 0, updated_documents := 0, skipped_existing := 0,
          s3_objects_created := [], s3_objects_updated := [], s3_writes := [] }
        { url := "https-example", title := "t", content := "known content",
          is_updated := false, is_new := true }).s3_writes = [] ∧
    (processDocument (fun s => s) ("20260101_000000") ("diabetes-webmd") false
        { tracker := { url_hashes := [], content_hashes := ["known content"],
                       last_run := "2026-01-01", total_documents := 1 },
          new_documents_scraped := 0, updated_documents := 0, skipped_existing := 0,
          s3_objects_created := [], s3_objects_updated := [], s3_writes := [] }
        { url := "https-example", title := "t", content := "known content",
          is_updated := false, is_new := true }).tracker =
      { url_hashes := [], content_hashes := ["known content"],
        last_run := "2026-01-01", total_documents := 1 } ∧
    (processDocument (fun s => s) ("20260101_000000") ("diabetes-webmd") false
        { tracker := { url_hashes := [], content_hashes := ["known content"],
                       last_run := "2026-01-01", total_documents := 1 },
          new_documents_scraped := 0, updated_documents := 0, skipped_existing := 0,
          s3_objects_created := [], s3_objects_updated := [], s3_writes := [] }
        { url := "https-example", title := "t", content := "known content",
          is_updated := false, is_new := true }).skipped_existing = 0 + 1 :=
  incremental_scrape_skips_known_hash (fun s => s) ("20260101_000000")
    ("diabetes-webmd") _ _ (by decide) (by decide)

/-- Helper: a middle factor of a three-part concatenation is a substring. -/
theorem containsStr_append_middle (x y z : String) : containsStr (x ++ y ++ z) y := by
  unfold containsStr
  simp only [String.data_append]
  exact List.infix_append x.data y.data z.data

/-- Helper: substring containment transported along an equation. -/
theorem containsStr_of_eq (s x y z : String) (h : s = x ++ y ++ z) :
    containsStr s y := by
  rw [h]
  exact containsStr_append_middle x y z

/-- C9: the web fallback formats exactly the result list handed back by
the external Tavily tool (requested with `k=3`): when the tool returns at
most three results, at most three formatted blocks appear, and each block
carries the result's title, content snippet, URL and relevance score. -/
theorem medical_web_search_at_most_three (key query : String)
    (search : String → Except String (List WebResult)) (rs : List WebResult)
    (hkey : key.length ≠ 0) (hs : search query = Except.ok rs)
    (hlen : rs.length ≤ 3) :
    (medicalWebSearchEntries rs).length ≤ 3 ∧
    (medical_web_search key search query).1 =
      pyStripStr ("**Web Search Results:**\n\n"
        ++ String.join (medicalWebSearchEntries rs)) ∧
    (∀ e ∈ medicalWebSearchEntries rs, ∃ p ∈ rs.enumFrom 1,
      e = formatWebResult p.1 p.2 ∧ containsStr e p.2.title ∧
      containsStr e p.2.content ∧ containsStr e p.2.url ∧
      containsStr e (format2f p.2.score)) := by
  refine ⟨?_, ?_, ?_⟩
  · simpa [medicalWebSearchEntries, List.enumFrom_length] using hlen
  · unfold medical_web_search
    rw [if_neg hkey, hs]
  · intro e he
    rcases List.mem_map.mp he with ⟨p, hp, hfmt⟩
    subst hfmt
    refine ⟨p, hp, rfl, ?_, ?_, ?_, ?_⟩
    · exact containsStr_of_eq _
        ("**Source " ++ toString p.1 ++ "** (relevance: " ++ format2f p.2.score
          ++ ")\n" ++ "**Title:** ")
        p.2.title
        ("\n" ++ p.2.content ++ "\n\n" ++ "*Reference: " ++ p.2.url ++ "*\n\n")
        (by simp [formatWebResult, String.append_assoc])
    · exact containsStr_of_eq _
        ("**Source " ++ toString p.1 ++ "** (relevance: " ++ format2f p.2.score
          ++ ")\n" ++ "**Title:** " ++ p.2.title ++ "\n")
        p.2.content
        ("\n\n" ++ "*Reference: " ++ p.2.url ++ "*\n\n")
        (by simp [formatWebResult, String.append_assoc])
    · exact containsStr_of_eq _
        ("**Source " ++ toString p.1 ++ "** (relevance: " ++ format2f p.2.score
          ++ ")\n" ++ "**Title:** " ++ p.2.title ++ "\n" ++ p.2.content ++ "\n\n"
          ++ "*Reference: ")
        p.2.url
        ("*\n\n")
        (by simp [formatWebResult, String.append_assoc])
    · exact containsStr_of_eq _
        ("**Source " ++ toString p.1 ++ "** (relevance: ")
        (format2f p.2.score)
        (")\n" ++ "**Title:** " ++ p.2.title ++ "\n" ++ p.2.content ++ "\n\n"
          ++ "*Reference: " ++ p.2.url ++ "*\n\n")
        (by simp [formatWebResult, String.append_assoc])

/-- Witness for C9: a single-result search response. -/
theorem medical_web_search_at_most_three_witness :
    (medicalWebSearchEntries [(⟨"t", "c", "u", 1/2⟩ : WebResult)]).length ≤ 3 ∧
    (medical_web_search ("k")
        (fun _ => Except.ok [(⟨"t", "c", "u", 1/2⟩ : WebResult)]) ("q")).1 =
      pyStripStr ("**Web Search Results:**\n\n"
        ++ String.join (medicalWebSearchEntries [(⟨"t", "c", "u", 1/2⟩ : WebResult)])) ∧
    (∀ e ∈ medicalWebSearchEntries [(⟨"t", "c", "u", 1/2⟩ : WebResult)],
      ∃ p ∈ ([(⟨"t", "c", "u", 1/2⟩ : WebResult)]).enumFrom 1,
        e = formatWebResult p.1 p.2 ∧ containsStr e p.2.title ∧
        containsStr e p.2.content ∧ containsStr e p.2.url ∧
        containsStr e (format2f p.2.score)) :=
  medical_web_search_at_most_three ("k") ("q")
    (fun _ => Except.ok [(⟨"t", "c", "u", 1/2⟩ : WebResult)])
    [(⟨"t", "c", "u", 1/2⟩ : WebResult)]
    (by decide) rfl (by decide)

/-- C10: with an empty knowledge-base identifier or an empty API key the
two retrieval features return their fixed `not configured`/`not
available` message, raise nothing, and issue no external request. -/
theorem missing_config_fixed_message (min_score : ℚ)
    (retrieve : String → Except String (List KBResult))
    (search : String → Except String (List WebResult)) (question : String) :
    query_diabetes_knowledge ("") min_score retrieve question =
      ("Diabetes knowledge base is not configured. Please contact your administrator.",
       []) ∧
    medical_web_search ("") search question =
      ("Medical web search functionality is not available because there is no API Key.",
       []) :=
  ⟨rfl, rfl⟩
